/-
Verification of the account ledger core of the banking-system repository
(src/accounts/models.py) against its natural-language specification.

Modelling conventions:
* Python `Decimal` values are embedded as exact rationals (ℚ).  All the
  additions, subtractions and comparisons performed by the source are exact
  in `Decimal`, so ℚ is a faithful model for them; the one division
  (`SavingsAccount.calculate_interest`) is exact in `Decimal` whenever the
  quotient is a terminating decimal within context precision, which holds at
  every concrete input used below.
* A Django model instance's mutable state is the `AccountState` structure
  (balance, ledger of `Transaction` rows ordered oldest-first, `is_active`).
  A method that mutates `self` and may raise becomes a function
  `AccountState → ℚ → AccountState × Option Err`: the returned state is the
  object's state at the moment the call returns or raises, and the `Option`
  is the raised error kind (`none` on normal return).  Every `raise` site of
  the source is mapped to the error kind the specification assigns to it.
* Fields not consulted by any claim (timestamps, descriptions, transaction
  ids, customer foreign keys) are omitted from the embedding.
-/

import Mathlib

/-- Error kinds of the specification's taxonomy, one per `raise` site of
src/accounts/models.py: `invalidAmount` for the "must be positive" checks,
`limitExceeded` for the savings daily-limit check, `insufficientBalance` for
the savings minimum-balance check, `overdraftExceeded` for the current-account
overdraft check, `negativeBalance` for `Account.set_balance`'s check, and
`integrityError` for the database unique-constraint failure on
`account_number`. -/
inductive Err where
  | invalidAmount
  | limitExceeded
  | insufficientBalance
  | overdraftExceeded
  | negativeBalance
  | integrityError
deriving DecidableEq, Repr

/-- Transaction types, from `Transaction.TRANSACTION_TYPES` in
src/accounts/models.py (lines 314-326). -/
inductive TxType where
  | DEPOSIT
  | WITHDRAWAL
  | TRANSFER_IN
  | TRANSFER_OUT
  | FEE
deriving DecidableEq, Repr

/-- One ledger row, from the `Transaction` model (src/accounts/models.py
lines 306-351), restricted to the fields the claims are about. -/
structure Transaction where
  transaction_type : TxType
  amount : ℚ
  balance_after : ℚ
deriving DecidableEq, Repr

/-- Mutable state of one account object together with its ledger: the
`balance` and ` is_active` fields of the `Account` base model
(src/accounts/models.py lines 41-47) and the list of `Transaction` rows
created for this account, oldest first (the most recent entry is the last). -/
structure AccountState where
  balance : ℚ
  ledger : List Transaction
  is_active : Bool
deriving DecidableEq, Repr

namespace Account

/-- `Account.set_balance` (src/accounts/models.py lines 64-69): raises
`ValueError` when the new amount is negative, otherwise overwrites `balance`
and saves.  It creates no `Transaction` row. -/
def set_balance (s : AccountState) (amount : ℚ) : AccountState × Option Err :=
  if amount < 0 then (s, some Err.negativeBalance)
  else ({ s with balance := amount }, none)

end Account

namespace SavingsAccount

/-- `SavingsAccount.MINIMUM_BALANCE` (src/accounts/models.py line 128). -/
def MINIMUM_BALANCE : ℚ := 500

/-- `SavingsAccount.INTEREST_RATE` (src/accounts/models.py line 129). -/
def INTEREST_RATE : ℚ := 4 / 100

/-- `SavingsAccount.WITHDRAWAL_LIMIT` (src/accounts/models.py line 130). -/
def WITHDRAWAL_LIMIT : ℚ := 50000

/-- `SavingsAccount.deposit` (src/accounts/models.py lines 142-162): rejects
non-positive amounts, otherwise adds the amount to the balance and appends one
DEPOSIT transaction whose `balance_after` is the new balance. -/
def deposit (s : AccountState) (amount : ℚ) : AccountState × Option Err :=
  if amount ≤ 0 then (s, some Err.invalidAmount)
  else
    let b := s.balance + amount
    ({ s with balance := b,
              ledger := s.ledger ++ [⟨TxType.DEPOSIT, amount, b⟩] }, none)

/-- `SavingsAccount.withdraw` (src/accounts/models.py lines 164-194): rejects
non-positive amounts, then amounts above `WITHDRAWAL_LIMIT`, then withdrawals
that would take the balance below `MINIMUM_BALANCE`; otherwise subtracts the
amount and appends one WITHDRAWAL transaction. -/
def withdraw (s : AccountState) (amount : ℚ) : AccountState × Option Err :=
  if amount ≤ 0 then (s, some Err.invalidAmount)
  else if amount > WITHDRAWAL_LIMIT then (s, some Err.limitExceeded)
  else if s.balance - amount < MINIMUM_BALANCE then (s, some Err.insufficientBalance)
  else
    let b := s.balance - amount
    ({ s with balance := b,
              ledger := s.ledger ++ [⟨TxType.WITHDRAWAL, amount, b⟩] }, none)

/-- `SavingsAccount.calculate_interest` (src/accounts/models.py lines
200-204): computes `balance * INTEREST_RATE / 12` on the current balance and
deposits it through `deposit`.  The second component is the value the source
returns when the inner deposit does not raise. -/
def calculate_interest (s : AccountState) : (AccountState × Option Err) × ℚ :=
  let interest := s.balance * INTEREST_RATE / 12
  (deposit s interest, interest)

end SavingsAccount

namespace CurrentAccount

/-- `CurrentAccount.MINIMUM_BALANCE` (src/accounts/models.py line 223). -/
def MINIMUM_BALANCE : ℚ := 1000

/-- `CurrentAccount.OVERDRAFT_LIMIT` (src/accounts/models.py line 224). -/
def OVERDRAFT_LIMIT : ℚ := 10000

/-- `CurrentAccount.TRANSACTION_FEE` (src/accounts/models.py line 225). -/
def TRANSACTION_FEE : ℚ := 10

/-- `CurrentAccount.deposit` (src/accounts/models.py lines 237-256): same
behaviour as the savings variant, recorded against the current account. -/
def deposit (s : AccountState) (amount : ℚ) : AccountState × Option Err :=
  if amount ≤ 0 then (s, some Err.invalidAmount)
  else
    let b := s.balance + amount
    ({ s with balance := b,
              ledger := s.ledger ++ [⟨TxType.DEPOSIT, amount, b⟩] }, none)

/-- `CurrentAccount.withdraw` (src/accounts/models.py lines 258-295): rejects
non-positive amounts, then checks `balance - amount < -OVERDRAFT_LIMIT` on the
requested amount alone; on success subtracts `amount + TRANSACTION_FEE` and
appends a WITHDRAWAL transaction (the requested amount) and a FEE transaction
(the fee), both carrying the final post-fee balance as `balance_after`. -/
def withdraw (s : AccountState) (amount : ℚ) : AccountState × Option Err :=
  if amount ≤ 0 then (s, some Err.invalidAmount)
  else if s.balance - amount < -OVERDRAFT_LIMIT then (s, some Err.overdraftExceeded)
  else
    let total_deduction := amount + TRANSACTION_FEE
    let b := s.balance - total_deduction
    ({ s with balance := b,
              ledger := s.ledger ++ [⟨TxType.WITHDRAWAL, amount, b⟩,
                                     ⟨TxType.FEE, TRANSACTION_FEE, b⟩] }, none)

end CurrentAccount

/-- Projection of a persisted `Account` row to the field that the
account-number generation logic touches. -/
structure AccountRow where
  account_number : String
deriving DecidableEq, Repr

namespace Account

/-- `Account.generate_account_number` (src/accounts/models.py lines 96-99):
joins 12 digits drawn from the random source.  The random source is injected
as a digit stream `ds`. -/
def generate_account_number (ds : ℕ → Fin 10) : String :=
  String.mk ((List.range 12).map (fun i => Char.ofNat (48 + (ds i).val)))

/-- `Account.save` (src/accounts/models.py lines 101-105) combined with the
database effect of `unique=True` on `account_number` (line 39): if the object
has no account number yet, one is generated (no uniqueness check and no
retry); the insert then fails with `IntegrityError` exactly when the number is
already taken by an existing row. -/
def save (existing : List String) (r : AccountRow) (ds : ℕ → Fin 10) :
    AccountRow × Option Err :=
  let r2 := if r.account_number = "" then AccountRow.mk (generate_account_number ds) else r
  if r2.account_number ∈ existing then (r2, some Err.integrityError) else (r2, none)

end Account

/-- Savings-account operations for ledger traces: each constructor is one
public mutating call on a `SavingsAccount`. -/
inductive SOp where
  | dep (amount : ℚ)
  | wdr (amount : ℚ)
  | interest
deriving DecidableEq, Repr

/-- State after one savings-account call, whether it returned normally or
raised (a raising call leaves the state as it was). -/
def sStep (s : AccountState) (op : SOp) : AccountState :=
  match op with
  | SOp.dep a => (SavingsAccount.deposit s a).1
  | SOp.wdr a => (SavingsAccount.withdraw s a).1
  | SOp.interest => (SavingsAccount.calculate_interest s).1.1

/-- State after a sequence of savings-account calls. -/
def sRun (s : AccountState) (ops : List SOp) : AccountState :=
  ops.foldl sStep s

/-- Current-account operations for ledger traces. -/
inductive COp where
  | dep (amount : ℚ)
  | wdr (amount : ℚ)
deriving DecidableEq, Repr

/-- State after one current-account call. -/
def cStep (s : AccountState) (op : COp) : AccountState :=
  match op with
  | COp.dep a => (CurrentAccount.deposit s a).1
  | COp.wdr a => (CurrentAccount.withdraw s a).1

/-- State after a sequence of current-account calls. -/
def cRun (s : AccountState) (ops : List COp) : AccountState :=
  ops.foldl cStep s

/-- The `balance_after` of the most recent ledger entry, or the initial seed
value when the ledger is empty (the specification's reference value for the
balance-reconciliation invariant). -/
def lastSnapshot (seed : ℚ) (s : AccountState) : ℚ :=
  match s.ledger.getLast? with
  | none => seed
  | some t => t.balance_after

/-- The specification's reconciliation invariant: the account balance equals
the `balance_after` of the most recent ledger entry, or the initial seed value
when no entries exist. -/
def ledgerInv (seed : ℚ) (s : AccountState) : Prop :=
  s.balance = lastSnapshot seed s

instance (seed : ℚ) (s : AccountState) : Decidable (ledgerInv seed s) :=
  inferInstanceAs (Decidable (s.balance = lastSnapshot seed s))

/-- Formalisation of the specification's validity predicate "at most 2
fractional digits": the amount scaled by 100 is an integer. -/
def fracDigitsAtMost2 (q : ℚ) : Prop := (q * 100).den = 1

instance (q : ℚ) : Decidable (fracDigitsAtMost2 q) :=
  inferInstanceAs (Decidable ((q * 100).den = 1))

/-- Formalisation of the specification's rounding rule "round-half-up to two
decimals", used to state what the specification claims `calculate_interest`
does. -/
def roundHalfUp2 (q : ℚ) : ℚ := (⌊q * 100 + 1 / 2⌋ : ℤ) / 100

/-
Helper lemmas for the reconciliation invariant.
-/

/-- Appending one transaction whose `balance_after` is the new balance
establishes the reconciliation invariant. -/
theorem ledgerInv_append_one (seed bal : ℚ) (l : List Transaction) (ty : TxType)
    (a : ℚ) (act : Bool) : ledgerInv seed ⟨bal, l ++ [⟨ty, a, bal⟩], act⟩ := by
  simp [ledgerInv, lastSnapshot, List.getLast?_concat]

/-- Appending two transactions that both carry the new balance establishes the
reconciliation invariant. -/
theorem ledgerInv_append_two (seed bal : ℚ) (l : List Transaction)
    (ty1 : TxType) (a1 : ℚ) (ty2 : TxType) (a2 : ℚ) (act : Bool) :
    ledgerInv seed ⟨bal, l ++ [⟨ty1, a1, bal⟩, ⟨ty2, a2, bal⟩], act⟩ := by
  rw [show l ++ [(⟨ty1, a1, bal⟩ : Transaction), ⟨ty2, a2, bal⟩] =
      (l ++ [⟨ty1, a1, bal⟩]) ++ [⟨ty2, a2, bal⟩] by simp]
  simp [ledgerInv, lastSnapshot, List.getLast?_concat]

/-- One savings-account call preserves the reconciliation invariant. -/
theorem sStep_preserves (seed : ℚ) (s : AccountState) (op : SOp)
    (h : ledgerInv seed s) : ledgerInv seed (sStep s op) := by
  cases op with
  | dep a =>
    by_cases h1 : a ≤ 0
    · simpa [sStep, SavingsAccount.deposit, h1] using h
    · simpa [sStep, SavingsAccount.deposit, h1] using
        ledgerInv_append_one seed (s.balance + a) s.ledger TxType.DEPOSIT a s.is_active
  | wdr a =>
    by_cases h1 : a ≤ 0
    · simpa [sStep, SavingsAccount.withdraw, h1] using h
    · by_cases h2 : a > SavingsAccount.WITHDRAWAL_LIMIT
      · simpa [sStep, SavingsAccount.withdraw, h1, h2] using h
      · by_cases h3 : s.balance - a < SavingsAccount.MINIMUM_BALANCE
        · simpa [sStep, SavingsAccount.withdraw, h1, h2, h3] using h
        · simpa [sStep, SavingsAccount.withdraw, h1, h2, h3] using
            ledgerInv_append_one seed (s.balance - a) s.ledger TxType.WITHDRAWAL a s.is_active
  | interest =>
    by_cases h1 : s.balance * SavingsAccount.INTEREST_RATE / 12 ≤ 0
    · simpa [sStep, SavingsAccount.calculate_interest, SavingsAccount.deposit, h1] using h
    · simpa [sStep, SavingsAccount.calculate_interest, SavingsAccount.deposit, h1] using
        ledgerInv_append_one seed (s.balance + s.balance * SavingsAccount.INTEREST_RATE / 12)
          s.ledger TxType.DEPOSIT (s.balance * SavingsAccount.INTEREST_RATE / 12) s.is_active

/-- One current-account call preserves the reconciliation invariant. -/
theorem cStep_preserves (seed : ℚ) (s : AccountState) (op : COp)
    (h : ledgerInv seed s) : ledgerInv seed (cStep s op) := by
  cases op with
  | dep a =>
    by_cases h1 : a ≤ 0
    · simpa [cStep, CurrentAccount.deposit, h1] using h
    · simpa [cStep, CurrentAccount.deposit, h1] using
        ledgerInv_append_one seed (s.balance + a) s.ledger TxType.DEPOSIT a s.is_active
  | wdr a =>
    by_cases h1 : a ≤ 0
    · simpa [cStep, CurrentAccount.withdraw, h1] using h
    · by_cases h2 : s.balance - a < -CurrentAccount.OVERDRAFT_LIMIT
      · simpa [cStep, CurrentAccount.withdraw, h1, h2] using h
      · simpa [cStep, CurrentAccount.withdraw, h1, h2] using
          ledgerInv_append_two seed (s.balance - (a + CurrentAccount.TRANSACTION_FEE)) s.ledger
            TxType.WITHDRAWAL a TxType.FEE CurrentAccount.TRANSACTION_FEE s.is_active

/-- C1 (amended): for every account state satisfying the reconciliation
invariant (balance equals the `balance_after` of the most recent ledger entry,
or the seed value when no entries exist) and every sequence of deposit,
withdraw and interest calls — successful or failing — the invariant still
holds afterwards, for both the savings and the current variant.  The original
claim additionally asserted that `Account.set_balance` preserves the
invariant; it does not (see the counterexample), because `set_balance`
overwrites the balance without writing a ledger entry. -/
theorem C1_ledger_invariant_preserved :
    (∀ (seed : ℚ) (s : AccountState) (ops : List SOp),
        ledgerInv seed s → ledgerInv seed (sRun s ops)) ∧
    (∀ (seed : ℚ) (s : AccountState) (ops : List COp),
        ledgerInv seed s → ledgerInv seed (cRun s ops)) := by
  constructor
  · intro seed s ops
    induction ops generalizing s with
    | nil => intro h; exact h
    | cons op rest ih =>
      intro h
      exact ih (sStep s op) (sStep_preserves seed s op h)
  · intro seed s ops
    induction ops generalizing s with
    | nil => intro h; exact h
    | cons op rest ih =>
      intro h
      exact ih (cStep s op) (cStep_preserves seed s op h)

/-- C1 witness: the invariant preservation theorem applied to concrete fresh
accounts and concrete operation sequences. -/
theorem C1_ledger_invariant_witness :
    ledgerInv 1000 (sRun ⟨1000, [], true⟩ [SOp.dep 50, SOp.wdr 100, SOp.interest]) ∧
    ledgerInv 1500 (cRun ⟨1500, [], true⟩ [COp.dep 20, COp.wdr 5]) :=
  ⟨C1_ledger_invariant_preserved.1 1000 ⟨1000, [], true⟩ _
      (by norm_num [ledgerInv, lastSnapshot]),
   C1_ledger_invariant_preserved.2 1500 ⟨1500, [], true⟩ _
      (by norm_num [ledgerInv, lastSnapshot])⟩

/-- C1 counterexample: a state that satisfies the reconciliation invariant, on
which `Account.set_balance` returns normally yet leaves a state violating the
invariant — `set_balance` changes the balance without writing a ledger
entry, so the original claim is false for it. -/
theorem C1_set_balance_breaks_invariant :
    ledgerInv 1000 ⟨600, [⟨TxType.WITHDRAWAL, 400, 600⟩], true⟩ ∧
    (Account.set_balance ⟨600, [⟨TxType.WITHDRAWAL, 400, 600⟩], true⟩ 700).2 = none ∧
    ¬ ledgerInv 1000 (Account.set_balance ⟨600, [⟨TxType.WITHDRAWAL, 400, 600⟩], true⟩ 700).1 := by
  norm_num [ledgerInv, lastSnapshot, Account.set_balance]

/-- C2 (amended): for every successful current-account withdrawal the
overdraft check holds on the requested amount alone — the pre-fee balance
`balance - amount` stays at or above `-OVERDRAFT_LIMIT` — so the recorded
post-fee balance only satisfies the weaker floor
`-(OVERDRAFT_LIMIT + TRANSACTION_FEE)`; and for positive amounts the
withdrawal fails with `OverdraftExceeded` exactly when
`balance - amount < -OVERDRAFT_LIMIT`.  The original claim's floor of
`-OVERDRAFT_LIMIT` on the resulting balance is false (see the
counterexample). -/
theorem C2_overdraft_check_amended :
    (∀ (s : AccountState) (a : ℚ), (CurrentAccount.withdraw s a).2 = none →
        -CurrentAccount.OVERDRAFT_LIMIT ≤ s.balance - a ∧
        -(CurrentAccount.OVERDRAFT_LIMIT + CurrentAccount.TRANSACTION_FEE) ≤
          (CurrentAccount.withdraw s a).1.balance) ∧
    (∀ (s : AccountState) (a : ℚ), 0 < a →
        ((CurrentAccount.withdraw s a).2 = some Err.overdraftExceeded ↔
          s.balance - a < -CurrentAccount.OVERDRAFT_LIMIT)) := by
  constructor
  · intro s a h
    by_cases h1 : a ≤ 0
    · simp [CurrentAccount.withdraw, h1] at h
    · by_cases h2 : s.balance - a < -CurrentAccount.OVERDRAFT_LIMIT
      · simp [CurrentAccount.withdraw, h1, h2] at h
      · refine ⟨not_lt.mp h2, ?_⟩
        have h3 := not_lt.mp h2
        simp [CurrentAccount.withdraw, h1, h2]
        simp only [CurrentAccount.OVERDRAFT_LIMIT, CurrentAccount.TRANSACTION_FEE] at h3 ⊢
        linarith
  · intro s a h1
    by_cases h2 : s.balance - a < -CurrentAccount.OVERDRAFT_LIMIT
    · simp [CurrentAccount.withdraw, not_le.mpr h1, h2]
    · simp [CurrentAccount.withdraw, not_le.mpr h1, h2]

/-- C2 witness: the amended theorem applied to a concrete successful
withdrawal (both conjuncts, with each hypothesis discharged). -/
theorem C2_overdraft_check_witness :
    (-CurrentAccount.OVERDRAFT_LIMIT ≤ (0 : ℚ) - 500 ∧
      -(CurrentAccount.OVERDRAFT_LIMIT + CurrentAccount.TRANSACTION_FEE) ≤
        (CurrentAccount.withdraw ⟨0, [], true⟩ 500).1.balance) ∧
    ((CurrentAccount.withdraw ⟨0, [], true⟩ 500).2 = some Err.overdraftExceeded ↔
      (0 : ℚ) - 500 < -CurrentAccount.OVERDRAFT_LIMIT) :=
  ⟨C2_overdraft_check_amended.1 ⟨0, [], true⟩ 500
      (by norm_num [CurrentAccount.withdraw, CurrentAccount.OVERDRAFT_LIMIT,
        CurrentAccount.TRANSACTION_FEE]),
   C2_overdraft_check_amended.2 ⟨0, [], true⟩ 500 (by norm_num)⟩

/-- C2 counterexample: a current account with balance 0.00 on which
withdrawing 9995.00 passes the overdraft check and succeeds, yet the recorded
resulting balance -10005.00 lies strictly below `-OVERDRAFT_LIMIT`, refuting
the original claim's floor. -/
theorem C2_overdraft_floor_counterexample :
    (CurrentAccount.withdraw ⟨0, [], true⟩ 9995).2 = none ∧
    (CurrentAccount.withdraw ⟨0, [], true⟩ 9995).1.balance = -10005 ∧
    (CurrentAccount.withdraw ⟨0, [], true⟩ 9995).1.balance <
      -CurrentAccount.OVERDRAFT_LIMIT := by
  norm_num [CurrentAccount.withdraw, CurrentAccount.OVERDRAFT_LIMIT,
    CurrentAccount.TRANSACTION_FEE]

/-- C3 (confirmed): for every current account and every positive amount that
passes the overdraft check, `withdraw` subtracts `amount + TRANSACTION_FEE`
from the balance and appends exactly two transactions — a WITHDRAWAL carrying
the requested amount and a FEE carrying 10.00, both with the same post-fee
`balance_after`; in particular withdrawing 500.00 at balance 0.00 succeeds and
leaves balance -510.00. -/
theorem C3_current_withdraw_fee :
    (∀ (s : AccountState) (a : ℚ), 0 < a →
        -CurrentAccount.OVERDRAFT_LIMIT ≤ s.balance - a →
        CurrentAccount.withdraw s a =
          ({ s with balance := s.balance - (a + CurrentAccount.TRANSACTION_FEE),
                    ledger := s.ledger ++
                      [⟨TxType.WITHDRAWAL, a, s.balance - (a + CurrentAccount.TRANSACTION_FEE)⟩,
                       ⟨TxType.FEE, CurrentAccount.TRANSACTION_FEE,
                         s.balance - (a + CurrentAccount.TRANSACTION_FEE)⟩] }, none)) ∧
    CurrentAccount.withdraw ⟨0, [], true⟩ 500 =
      (⟨-510, [⟨TxType.WITHDRAWAL, 500, -510⟩, ⟨TxType.FEE, 10, -510⟩], true⟩, none) := by
  constructor
  · intro s a h1 h2
    simp [CurrentAccount.withdraw, not_le.mpr h1, not_lt.mpr h2]
  · norm_num [CurrentAccount.withdraw, CurrentAccount.OVERDRAFT_LIMIT,
      CurrentAccount.TRANSACTION_FEE]

/-- C3 witness: the theorem applied at balance 200.00 and amount 50.00. -/
theorem C3_current_withdraw_fee_witness :
    CurrentAccount.withdraw ⟨200, [], true⟩ 50 =
      (⟨140, [⟨TxType.WITHDRAWAL, 50, 140⟩, ⟨TxType.FEE, 10, 140⟩], true⟩, none) := by
  have h := C3_current_withdraw_fee.1 ⟨200, [], true⟩ 50 (by norm_num)
    (by norm_num [CurrentAccount.OVERDRAFT_LIMIT])
  norm_num [CurrentAccount.TRANSACTION_FEE] at h
  exact h

/-- C10 (confirmed): every successful current-account withdrawal leaves the
balance at or above `-(OVERDRAFT_LIMIT + TRANSACTION_FEE)` = -10010.00, and
the bound is tight: withdrawing 9995.00 at balance 0.00 succeeds and lands at
-10005.00, strictly between -10010.00 and -10000.00, because the overdraft
check is applied to the requested amount before the fee is deducted. -/
theorem C10_overdraft_fee_bound :
    (∀ (s : AccountState) (a : ℚ), (CurrentAccount.withdraw s a).2 = none →
        -(CurrentAccount.OVERDRAFT_LIMIT + CurrentAccount.TRANSACTION_FEE) ≤
          (CurrentAccount.withdraw s a).1.balance) ∧
    ((CurrentAccount.withdraw ⟨0, [], true⟩ 9995).2 = none ∧
      -(CurrentAccount.OVERDRAFT_LIMIT + CurrentAccount.TRANSACTION_FEE) <
        (CurrentAccount.withdraw ⟨0, [], true⟩ 9995).1.balance ∧
      (CurrentAccount.withdraw ⟨0, [], true⟩ 9995).1.balance <
        -CurrentAccount.OVERDRAFT_LIMIT) := by
  constructor
  · intro s a h
    by_cases h1 : a ≤ 0
    · simp [CurrentAccount.withdraw, h1] at h
    · by_cases h2 : s.balance - a < -CurrentAccount.OVERDRAFT_LIMIT
      · simp [CurrentAccount.withdraw, h1, h2] at h
      · have h3 := not_lt.mp h2
        simp [CurrentAccount.withdraw, h1, h2]
        simp only [CurrentAccount.OVERDRAFT_LIMIT, CurrentAccount.TRANSACTION_FEE] at h3 ⊢
        linarith
  · norm_num [CurrentAccount.withdraw, CurrentAccount.OVERDRAFT_LIMIT,
      CurrentAccount.TRANSACTION_FEE]

/-- C10 witness: the bound applied to a concrete successful withdrawal. -/
theorem C10_overdraft_fee_bound_witness :
    -(CurrentAccount.OVERDRAFT_LIMIT + CurrentAccount.TRANSACTION_FEE) ≤
      (CurrentAccount.withdraw ⟨0, [], true⟩ 500).1.balance :=
  C10_overdraft_fee_bound.1 ⟨0, [], true⟩ 500
    (by norm_num [CurrentAccount.withdraw, CurrentAccount.OVERDRAFT_LIMIT,
      CurrentAccount.TRANSACTION_FEE])

/-- C4 (amended): savings withdrawals fail with `InvalidAmount` for
non-positive amounts; for positive amounts they fail with `LimitExceeded`
when the amount exceeds `WITHDRAWAL_LIMIT`, then with `InsufficientBalance`
when `balance - amount < MINIMUM_BALANCE`, and otherwise succeed, decreasing
the balance by exactly the amount and appending one WITHDRAWAL transaction
whose `balance_after` is the new balance; with balance 1000.00, withdrawing
600.00 fails and withdrawing 400.00 succeeds with `balance_after` 600.00.
The original claim omitted the `InvalidAmount` case and so asserted success
for non-positive amounts (see the counterexample). -/
theorem C4_savings_withdraw_amended :
    (∀ (s : AccountState) (a : ℚ), a ≤ 0 →
        SavingsAccount.withdraw s a = (s, some Err.invalidAmount)) ∧
    (∀ (s : AccountState) (a : ℚ), 0 < a → SavingsAccount.WITHDRAWAL_LIMIT < a →
        SavingsAccount.withdraw s a = (s, some Err.limitExceeded)) ∧
    (∀ (s : AccountState) (a : ℚ), 0 < a → a ≤ SavingsAccount.WITHDRAWAL_LIMIT →
        s.balance - a < SavingsAccount.MINIMUM_BALANCE →
        SavingsAccount.withdraw s a = (s, some Err.insufficientBalance)) ∧
    (∀ (s : AccountState) (a : ℚ), 0 < a → a ≤ SavingsAccount.WITHDRAWAL_LIMIT →
        SavingsAccount.MINIMUM_BALANCE ≤ s.balance - a →
        SavingsAccount.withdraw s a =
          ({ s with balance := s.balance - a,
                    ledger := s.ledger ++ [⟨TxType.WITHDRAWAL, a, s.balance - a⟩] }, none)) ∧
    SavingsAccount.withdraw ⟨1000, [], true⟩ 600 =
      (⟨1000, [], true⟩, some Err.insufficientBalance) ∧
    SavingsAccount.withdraw ⟨1000, [], true⟩ 400 =
      (⟨600, [⟨TxType.WITHDRAWAL, 400, 600⟩], true⟩, none) := by
  refine ⟨?_, ?_, ?_, ?_, ?_, ?_⟩
  · intro s a h
    simp [SavingsAccount.withdraw, h]
  · intro s a h1 h2
    simp [SavingsAccount.withdraw, not_le.mpr h1, h2]
  · intro s a h1 h2 h3
    simp [SavingsAccount.withdraw, not_le.mpr h1, not_lt.mpr h2, h3]
  · intro s a h1 h2 h3
    simp [SavingsAccount.withdraw, not_le.mpr h1, not_lt.mpr h2, not_lt.mpr h3]
  · norm_num [SavingsAccount.withdraw, SavingsAccount.WITHDRAWAL_LIMIT,
      SavingsAccount.MINIMUM_BALANCE]
  · norm_num [SavingsAccount.withdraw, SavingsAccount.WITHDRAWAL_LIMIT,
      SavingsAccount.MINIMUM_BALANCE]

/-- C4 witness: each quantified case of the amended theorem applied at a
concrete input with its hypotheses discharged. -/
theorem C4_savings_withdraw_witness :
    SavingsAccount.withdraw ⟨1000, [], true⟩ (-5) = (⟨1000, [], true⟩, some Err.invalidAmount) ∧
    SavingsAccount.withdraw ⟨1000, [], true⟩ 60000 = (⟨1000, [], true⟩, some Err.limitExceeded) ∧
    SavingsAccount.withdraw ⟨1000, [], true⟩ 600 =
      (⟨1000, [], true⟩, some Err.insufficientBalance) ∧
    SavingsAccount.withdraw ⟨1000, [], true⟩ 400 =
      (⟨600, [⟨TxType.WITHDRAWAL, 400, 600⟩], true⟩, none) := by
  refine ⟨?_, ?_, ?_, ?_⟩
  · exact C4_savings_withdraw_amended.1 ⟨1000, [], true⟩ (-5) (by norm_num)
  · exact C4_savings_withdraw_amended.2.1 ⟨1000, [], true⟩ 60000 (by norm_num)
      (by norm_num [SavingsAccount.WITHDRAWAL_LIMIT])
  · exact C4_savings_withdraw_amended.2.2.1 ⟨1000, [], true⟩ 600 (by norm_num)
      (by norm_num [SavingsAccount.WITHDRAWAL_LIMIT])
      (by norm_num [SavingsAccount.MINIMUM_BALANCE])
  · have h := C4_savings_withdraw_amended.2.2.2.1 ⟨1000, [], true⟩ 400 (by norm_num)
      (by norm_num [SavingsAccount.WITHDRAWAL_LIMIT])
      (by norm_num [SavingsAccount.MINIMUM_BALANCE])
    norm_num at h
    exact h

/-- C4 counterexample: at balance 1000.00 a withdrawal of 0 triggers neither
of the two failure conditions the claim lists, yet the source raises
`InvalidAmount` instead of succeeding, so the claim's "otherwise succeeds" is
false as stated. -/
theorem C4_nonpositive_counterexample :
    ¬ (SavingsAccount.WITHDRAWAL_LIMIT < 0) ∧
    ¬ ((1000 : ℚ) - 0 < SavingsAccount.MINIMUM_BALANCE) ∧
    SavingsAccount.withdraw ⟨1000, [], true⟩ 0 = (⟨1000, [], true⟩, some Err.invalidAmount) := by
  norm_num [SavingsAccount.withdraw, SavingsAccount.WITHDRAWAL_LIMIT,
    SavingsAccount.MINIMUM_BALANCE]

/-- C5 (code bug): the source consults `is_active` in no mutating operation —
on an inactive savings account a deposit of 100.00 succeeds, increases the
balance and appends a ledger entry, and on an inactive current account a
withdrawal of 100.00 succeeds likewise, where the specification requires both
to fail with `AccountInactive` leaving the state unchanged. -/
theorem C5_inactive_ops_succeed :
    SavingsAccount.deposit ⟨1000, [], false⟩ 100 =
      (⟨1100, [⟨TxType.DEPOSIT, 100, 1100⟩], false⟩, none) ∧
    CurrentAccount.withdraw ⟨1000, [], false⟩ 100 =
      (⟨890, [⟨TxType.WITHDRAWAL, 100, 890⟩, ⟨TxType.FEE, 10, 890⟩], false⟩, none) := by
  constructor
  · norm_num [SavingsAccount.deposit]
  · norm_num [CurrentAccount.withdraw, CurrentAccount.OVERDRAFT_LIMIT,
      CurrentAccount.TRANSACTION_FEE]

/-- C6 (confirmed): whenever a deposit or withdrawal raises — for any reason —
the account state (balance and ledger alike) at the moment the exception
leaves the call is exactly the state before the call: every raise in the
source happens before the balance mutation and the ledger append, so failed
operations are atomic no-ops. -/
theorem C6_failed_ops_are_noops (s : AccountState) (a : ℚ) (e : Err) :
    ((SavingsAccount.deposit s a).2 = some e → (SavingsAccount.deposit s a).1 = s) ∧
    ((SavingsAccount.withdraw s a).2 = some e → (SavingsAccount.withdraw s a).1 = s) ∧
    ((CurrentAccount.deposit s a).2 = some e → (CurrentAccount.deposit s a).1 = s) ∧
    ((CurrentAccount.withdraw s a).2 = some e → (CurrentAccount.withdraw s a).1 = s) := by
  refine ⟨?_, ?_, ?_, ?_⟩ <;> intro h
  · by_cases h1 : a ≤ 0
    · simp [SavingsAccount.deposit, h1]
    · simp [SavingsAccount.deposit, h1] at h
  · by_cases h1 : a ≤ 0
    · simp [SavingsAccount.withdraw, h1]
    · by_cases h2 : a > SavingsAccount.WITHDRAWAL_LIMIT
      · simp [SavingsAccount.withdraw, h1, h2]
      · by_cases h3 : s.balance - a < SavingsAccount.MINIMUM_BALANCE
        · simp [SavingsAccount.withdraw, h1, h2, h3]
        · simp [SavingsAccount.withdraw, h1, h2, h3] at h
  · by_cases h1 : a ≤ 0
    · simp [CurrentAccount.deposit, h1]
    · simp [CurrentAccount.deposit, h1] at h
  · by_cases h1 : a ≤ 0
    · simp [CurrentAccount.withdraw, h1]
    · by_cases h2 : s.balance - a < -CurrentAccount.OVERDRAFT_LIMIT
      · simp [CurrentAccount.withdraw, h1, h2]
      · simp [CurrentAccount.withdraw, h1, h2] at h

/-- C6 witness: the no-op theorem applied to a concrete failing withdrawal
(insufficient balance on a savings account). -/
theorem C6_failed_ops_witness :
    (SavingsAccount.withdraw ⟨1000, [], true⟩ 600).1 = ⟨1000, [], true⟩ :=
  (C6_failed_ops_are_noops ⟨1000, [], true⟩ 600 Err.insufficientBalance).2.1
    (by norm_num [SavingsAccount.withdraw, SavingsAccount.WITHDRAWAL_LIMIT,
      SavingsAccount.MINIMUM_BALANCE])

/-- Every character produced from one random digit draw is a digit. -/
theorem digit_draw_isDigit : ∀ d : Fin 10, (Char.ofNat (48 + d.val)).isDigit = true := by
  decide

/-- C7 (amended): generated account numbers are 12-character numeric strings,
and saving a fresh account assigns it the generated number with no collision
handling: the save succeeds exactly when the generated number is not already
taken, and on a collision it fails with the database `IntegrityError` instead
of retrying with a distinct number (the original claim's bounded retry and
`GenerationExhausted` do not exist in the source; see the counterexample). -/
theorem C7_account_number_amended (existing : List String) (ds : ℕ → Fin 10) :
    (Account.generate_account_number ds).length = 12 ∧
    (Account.generate_account_number ds).toList.all Char.isDigit = true ∧
    (Account.save existing ⟨""⟩ ds).1 = ⟨Account.generate_account_number ds⟩ ∧
    ((Account.save existing ⟨""⟩ ds).2 = some Err.integrityError ↔
      Account.generate_account_number ds ∈ existing) := by
  refine ⟨?_, ?_, ?_, ?_⟩
  · simp [Account.generate_account_number, String.length]
  · simp only [Account.generate_account_number, String.toList, List.all_eq_true,
      List.mem_map, List.mem_range]
    rintro c ⟨i, hi, rfl⟩
    exact digit_draw_isDigit (ds i)
  · by_cases hm : Account.generate_account_number ds ∈ existing
    · simp [Account.save, hm]
    · simp [Account.save, hm]
  · by_cases hm : Account.generate_account_number ds ∈ existing
    · simp [Account.save, hm]
    · simp [Account.save, hm]

/-- C7 counterexample: with the number 000000000000 already taken and a random
stream that produces it again, saving a fresh account assigns the colliding
number and fails with `IntegrityError` — no distinct number is generated for
the second account, refuting the claimed collision retry. -/
theorem C7_collision_no_retry :
    Account.save ["000000000000"] ⟨""⟩ (fun _ => (0 : Fin 10)) =
      (⟨"000000000000"⟩, some Err.integrityError) ∧
    (Account.save ["000000000000"] ⟨""⟩ (fun _ => (0 : Fin 10))).1.account_number ∈
      ["000000000000"] := by
  norm_num [Account.save, Account.generate_account_number, List.range, List.range.loop]

/-- C8 (amended): on a positive balance `calculate_interest` computes the
exact value `balance * INTEREST_RATE / 12` on the pre-deposit balance and
deposits it with no rounding, appending one DEPOSIT transaction carrying that
unrounded amount, and returns the unrounded interest.  The original claim's
round-half-up to two decimals does not happen in the source (see the
counterexample). -/
theorem C8_interest_amended (s : AccountState) (h : 0 < s.balance) :
    SavingsAccount.calculate_interest s =
      (({ s with balance := s.balance + s.balance * SavingsAccount.INTEREST_RATE / 12,
                 ledger := s.ledger ++
                   [⟨TxType.DEPOSIT, s.balance * SavingsAccount.INTEREST_RATE / 12,
                     s.balance + s.balance * SavingsAccount.INTEREST_RATE / 12⟩] }, none),
       s.balance * SavingsAccount.INTEREST_RATE / 12) := by
  have hrate : (0 : ℚ) < SavingsAccount.INTEREST_RATE := by
    norm_num [SavingsAccount.INTEREST_RATE]
  have hpos : 0 < s.balance * SavingsAccount.INTEREST_RATE / 12 :=
    div_pos (mul_pos h hrate) (by norm_num)
  simp [SavingsAccount.calculate_interest, SavingsAccount.deposit, not_le.mpr hpos]

/-- C8 witness: the amended theorem at balance 300.00, where the monthly
interest is exactly 1.00. -/
theorem C8_interest_witness :
    SavingsAccount.calculate_interest ⟨300, [], true⟩ =
      ((⟨301, [⟨TxType.DEPOSIT, 1, 301⟩], true⟩, none), 1) := by
  have h := C8_interest_amended ⟨300, [], true⟩ (by norm_num)
  norm_num [SavingsAccount.INTEREST_RATE] at h
  exact h

/-- C8 counterexample: at balance 937.50 the exact monthly interest is 3.125;
the source deposits 3.125 and ends at balance 940.625, while the claimed
round-half-up to two decimals would deposit 3.13 and end at 940.63. -/
theorem C8_interest_not_rounded :
    SavingsAccount.calculate_interest ⟨937.50, [], true⟩ =
      ((⟨940.625, [⟨TxType.DEPOSIT, 3.125, 940.625⟩], true⟩, none), 3.125) ∧
    roundHalfUp2 3.125 = 3.13 ∧ (3.125 : ℚ) ≠ 3.13 ∧ (940.625 : ℚ) ≠ 940.63 := by
  refine ⟨?_, ?_, by norm_num, by norm_num⟩
  · norm_num [SavingsAccount.calculate_interest, SavingsAccount.deposit,
      SavingsAccount.INTEREST_RATE]
  · norm_num [roundHalfUp2]

/-- C9 (amended): the account operations validate only positivity — every
non-positive amount is rejected with `InvalidAmount` by deposit and withdraw
on both variants, leaving the state unchanged; no check on the number of
fractional digits exists in the ledger core, so amounts with more than two
fractional digits are accepted (see the counterexample). -/
theorem C9_positive_only_amended (s : AccountState) (a : ℚ) (h : a ≤ 0) :
    SavingsAccount.deposit s a = (s, some Err.invalidAmount) ∧
    SavingsAccount.withdraw s a = (s, some Err.invalidAmount) ∧
    CurrentAccount.deposit s a = (s, some Err.invalidAmount) ∧
    CurrentAccount.withdraw s a = (s, some Err.invalidAmount) := by
  refine ⟨?_, ?_, ?_, ?_⟩ <;>
    simp [SavingsAccount.deposit, SavingsAccount.withdraw, CurrentAccount.deposit,
      CurrentAccount.withdraw, h]

/-- C9 witness: the amended theorem applied to a zero deposit request. -/
theorem C9_positive_only_witness :
    SavingsAccount.deposit ⟨500, [], true⟩ 0 = (⟨500, [], true⟩, some Err.invalidAmount) ∧
    SavingsAccount.withdraw ⟨500, [], true⟩ 0 = (⟨500, [], true⟩, some Err.invalidAmount) ∧
    CurrentAccount.deposit ⟨500, [], true⟩ 0 = (⟨500, [], true⟩, some Err.invalidAmount) ∧
    CurrentAccount.withdraw ⟨500, [], true⟩ 0 = (⟨500, [], true⟩, some Err.invalidAmount) :=
  C9_positive_only_amended ⟨500, [], true⟩ 0 (by norm_num)

/-- C9 counterexample: 0.001 is positive but has three fractional digits; the
savings deposit accepts it into the ledger instead of rejecting it with
`InvalidAmount`, refuting the claimed fractional-digits validation. -/
theorem C9_frac_digits_accepted :
    (0 : ℚ) < 1 / 1000 ∧ ¬ fracDigitsAtMost2 (1 / 1000) ∧
    SavingsAccount.deposit ⟨1000, [], true⟩ (1 / 1000) =
      (⟨1000 + 1 / 1000, [⟨TxType.DEPOSIT, 1 / 1000, 1000 + 1 / 1000⟩], true⟩, none) := by
  norm_num [SavingsAccount.deposit, fracDigitsAtMost2]
